import Mathlib

/-!
Shallow embedding of the configuration-resolution core of
SuhaibParameterStoreClient: the fallback policy in config/helper.go
(setValueIfEmpty, simpleRetrieveParameterWithTimeout, ParameterStoreConfig.Init),
the endpoint constructor and certificate material in config/psclient.go
(NewParameterStoreClient, CertificateSource.IsProvided, CertificateSource.GetData).

External effects are modelled explicitly: the single underlying gRPC retrieve
performed by one resolution is an oracle value (RemoteOutcome), the process
environment is a function String to String, and the file system is a function
String to Except. Every operation additionally returns the list of external
calls it performed, in order, so that call-count properties are provable.
-/

namespace SPSC

/-- Go error values: `msg` models errors.New or fmt.Errorf without a cause,
`wrapped` models fmt.Errorf with a wrapped cause (the format text before
the cause is kept, the cause is carried). -/
inductive GoErr where
  | msg (s : String)
  | wrapped (s : String) (cause : GoErr)
deriving DecidableEq, Repr

/-- Outcome of the one underlying gRPC retrieve call a resolution performs:
the (value, err) pair the gRPC client function returned, together with
whether the surrounding context deadline had elapsed when it returned
(ctx.Err() == context.DeadlineExceeded). -/
structure RemoteOutcome where
  value : String
  err : Option GoErr
  deadlineExceeded : Bool
deriving DecidableEq, Repr

/-- Which transport variant simpleRetrieveParameterWithTimeout dispatches to. -/
inductive TransportVariant where
  | mtls
  | plain
deriving DecidableEq, Repr

/-- One external call performed during a resolution. -/
inductive CallEvent where
  | retrieveCall (variant : TransportVariant) (key : String)
  | getenvCall (name : String)
deriving DecidableEq, Repr

/-- The ambient effects a resolution can observe: the outcome of its gRPC
retrieve call and the process environment (osGetenvFunc, i.e. os.Getenv). -/
structure Env where
  remote : RemoteOutcome
  getenv : String → String

/-- The mTLS dispatch condition of simpleRetrieveParameterWithTimeout
(config/helper.go line 67): all three certificate file paths non-empty. -/
def mtlsConfigured (clientCertFile clientKeyFile caCertFile : String) : Bool :=
  clientCertFile ≠ "" && clientKeyFile ≠ "" && caCertFile ≠ ""

/-- The transport variant chosen from the three certificate file paths. -/
def variantOf (clientCertFile clientKeyFile caCertFile : String) : TransportVariant :=
  if mtlsConfigured clientCertFile clientKeyFile caCertFile then
    TransportVariant.mtls
  else
    TransportVariant.plain

/-- config/helper.go simpleRetrieveParameterWithTimeout: performs the gRPC
retrieve (mTLS variant when all three cert paths are set, plain otherwise)
and, when the call returned an error while the context deadline had elapsed,
replaces the result with a wrapped timeout error
(fmt.Errorf with text removed of the format verb:
"parameter store operation timed out"). -/
def simpleRetrieveParameterWithTimeout (env : Env)
    (paramStoreHost : String) (paramStorePort : Int) (parameterStoreTimeout : Int)
    (parameterStoreSecret parameterStoreKey clientCertFile clientKeyFile caCertFile : String) :
    (String × Option GoErr) × List CallEvent :=
  let variant := variantOf clientCertFile clientKeyFile caCertFile
  let outcome := env.remote
  let events := [CallEvent.retrieveCall variant parameterStoreKey]
  match outcome.err, outcome.deadlineExceeded with
  | some e, true =>
      (("", some (GoErr.wrapped "parameter store operation timed out" e)), events)
  | e, _ =>
      ((outcome.value, e), events)

/-- The exact failure message built at config/helper.go line 125. -/
def unresolvedMsg (parameterStoreKey envVarKey : String) : String :=
  "Failed to retrieve value for parameter store key \x27" ++ parameterStoreKey ++
  "\x27 (checked env var \x27" ++ envVarKey ++
  "\x27). Neither parameter store nor environment variable provided a value."

/-- config/helper.go setValueIfEmpty: priority chain
explicit value, then parameter store, then environment variable;
errors.New with unresolvedMsg when all three miss. -/
def setValueIfEmpty (env : Env)
    (paramStoreHost : String) (paramStorePort : Int) (parameterStoreTimeout : Int)
    (value parameterStoreKey parameterStoreSecret envVarKey
     clientCertFile clientKeyFile caCertFile : String) :
    (String × Option GoErr) × List CallEvent :=
  if value ≠ "" then
    ((value, none), [])
  else
    let r := simpleRetrieveParameterWithTimeout env paramStoreHost paramStorePort
      parameterStoreTimeout parameterStoreSecret parameterStoreKey
      clientCertFile clientKeyFile caCertFile
    let value := r.1.1
    let err := r.1.2
    if err = none ∧ value ≠ "" then
      ((value, none), r.2)
    else
      let value := env.getenv envVarKey
      let events := r.2 ++ [CallEvent.getenvCall envVarKey]
      if value ≠ "" then
        ((value, none), events)
      else
        (("", some (GoErr.msg (unresolvedMsg parameterStoreKey envVarKey))), events)

/-- config/helper.go ParameterStoreConfig. -/
structure ParameterStoreConfig where
  ParameterStoreKey : String
  ParameterStoreSecret : String
  EnvironmentVariableKey : String
  ParameterStoreValue : String
  ParameterStoreUseEmptyValue : Bool
  ClientCertFile : String
  ClientKeyFile : String
  CACertFile : String
deriving DecidableEq, Repr

/-- config/helper.go (*ParameterStoreConfig).Init: returns early when the
value is already set or the use-empty flag is set, otherwise runs
setValueIfEmpty and stores the result; the Go panic on error is modelled
as Except.error. -/
def ParameterStoreConfig.Init (env : Env) (c : ParameterStoreConfig)
    (paramStoreHost : String) (paramStorePort : Int) (parameterStoreTimeout : Int) :
    Except GoErr ParameterStoreConfig × List CallEvent :=
  if c.ParameterStoreValue ≠ "" then
    (Except.ok c, [])
  else if c.ParameterStoreUseEmptyValue then
    (Except.ok c, [])
  else
    let r := setValueIfEmpty env paramStoreHost paramStorePort parameterStoreTimeout
      c.ParameterStoreValue c.ParameterStoreKey c.ParameterStoreSecret
      c.EnvironmentVariableKey c.ClientCertFile c.ClientKeyFile c.CACertFile
    match r.1.2 with
    | some e => (Except.error e, r.2)
    | none => (Except.ok { c with ParameterStoreValue := r.1.1 }, r.2)

/-- config/psclient.go CertificateSource (identical to the copy in
client/client.go): a file path or raw bytes. -/
structure CertificateSource where
  FilePath : String
  Bytes : List Nat
deriving DecidableEq, Repr

/-- config/psclient.go (*CertificateSource).IsProvided. -/
def CertificateSource.IsProvided (cs : CertificateSource) : Bool :=
  cs.FilePath ≠ "" || cs.Bytes.length > 0

/-- File system oracle standing for os.ReadFile. -/
def FileSystem := String → Except GoErr (List Nat)

/-- config/psclient.go (*CertificateSource).GetData (same code as the copy
in client/client.go lines 277-291): prefer Bytes, else read FilePath
(wrapping a read failure), else return nil data and nil error. The second
component of the result lists the file paths read. -/
def CertificateSource.GetData (cs : CertificateSource) (fs : FileSystem) :
    (Option (List Nat) × Option GoErr) × List String :=
  if cs.Bytes.length > 0 then
    ((some cs.Bytes, none), [])
  else if cs.FilePath ≠ "" then
    match fs cs.FilePath with
    | Except.error e =>
        ((none, some (GoErr.wrapped ("failed to read certificate/key from " ++ cs.FilePath) e)),
         [cs.FilePath])
    | Except.ok data => ((some data, none), [cs.FilePath])
  else
    ((none, none), [])

/-- config/psclient.go ParameterStoreClient. Timeout is in nanoseconds
(Go time.Duration). -/
structure ParameterStoreClient where
  Host : String
  Port : Int
  Timeout : Int
  ClientCert : CertificateSource
  ClientKey : CertificateSource
  CACert : CertificateSource
deriving DecidableEq, Repr

/-- config/psclient.go NewParameterStoreClient: validates host and port,
defaults a non-positive timeout to 30 seconds, and enforces the
all-or-nothing mTLS triple. -/
def NewParameterStoreClient (host : String) (port : Int) (timeout : Int)
    (clientCert clientKey caCert : CertificateSource) :
    Except GoErr ParameterStoreClient :=
  if host = "" then
    Except.error (GoErr.msg "host cannot be empty")
  else if port ≤ 0 then
    Except.error (GoErr.msg "port must be a positive integer")
  else
    let timeout := if timeout ≤ 0 then 30 * 1000000000 else timeout
    let clientCertProvided := clientCert.IsProvided
    let clientKeyProvided := clientKey.IsProvided
    let caCertProvided := caCert.IsProvided
    if (clientCertProvided || clientKeyProvided || caCertProvided) &&
        !(clientCertProvided && clientKeyProvided && caCertProvided) then
      Except.error
        (GoErr.msg "for mTLS, client certificate, client key, and CA certificate must all be provided")
    else
      Except.ok
        { Host := host, Port := port, Timeout := timeout,
          ClientCert := clientCert, ClientKey := clientKey, CACert := caCert }

/-- Number of the three certificate sources that are provided. -/
def providedCount (clientCert clientKey caCert : CertificateSource) : Nat :=
  (if clientCert.IsProvided then 1 else 0) +
  (if clientKey.IsProvided then 1 else 0) +
  (if caCert.IsProvided then 1 else 0)

/-! Concrete environments used by witnesses. -/

/-- A remote store that succeeds with a non-empty value; empty process env. -/
def envOkRemote : Env :=
  { remote := { value := "remote-val", err := none, deadlineExceeded := false },
    getenv := fun _ => "" }

/-- A remote store whose call errs while the deadline has elapsed; the
process env maps ENVK to env-val. -/
def envTimedOut : Env :=
  { remote := { value := "", err := some (GoErr.msg "boom"), deadlineExceeded := true },
    getenv := fun n => if n = "ENVK" then "env-val" else "" }

/-- A remote store whose call errs without deadline overrun; empty process env. -/
def envFailRemote : Env :=
  { remote := { value := "", err := some (GoErr.msg "boom"), deadlineExceeded := false },
    getenv := fun _ => "" }

/-- A remote store that returns empty without error; empty process env. -/
def envEmptyRemote : Env :=
  { remote := { value := "", err := none, deadlineExceeded := false },
    getenv := fun _ => "" }

/-- A sample slot with no pre-set value and the use-empty flag off. -/
def slotK : ParameterStoreConfig :=
  { ParameterStoreKey := "k", ParameterStoreSecret := "s",
    EnvironmentVariableKey := "ENVK", ParameterStoreValue := "",
    ParameterStoreUseEmptyValue := false,
    ClientCertFile := "", ClientKeyFile := "", CACertFile := "" }

/-- C1: when the supplied current value is non-empty, setValueIfEmpty returns
it unchanged with no error and performs no external call, and Init on a slot
whose value is already set returns the slot unchanged with no external call. -/
theorem C1_explicit_value_wins (env : Env) (host : String) (port timeout : Int)
    (value key secret envVarKey ccf ckf caf : String) (c : ParameterStoreConfig)
    (hv : value ≠ "") (hc : c.ParameterStoreValue ≠ "") :
    setValueIfEmpty env host port timeout value key secret envVarKey ccf ckf caf
      = ((value, none), []) ∧
    ParameterStoreConfig.Init env c host port timeout = (Except.ok c, []) := by
  constructor
  · simp [setValueIfEmpty, hv]
  · simp [ParameterStoreConfig.Init, hc]

/-- C1 witness at concrete inputs. -/
theorem C1_explicit_value_wins_witness :
    setValueIfEmpty envOkRemote "h" 1 5 "preset" "k" "s" "ENVK" "" "" ""
      = (("preset", none), []) ∧
    ParameterStoreConfig.Init envOkRemote
      { slotK with ParameterStoreValue := "preset" } "h" 1 5
      = (Except.ok { slotK with ParameterStoreValue := "preset" }, []) :=
  C1_explicit_value_wins envOkRemote "h" 1 5 "preset" "k" "s" "ENVK" "" "" ""
    { slotK with ParameterStoreValue := "preset" } (by decide) (by decide)

/-- C2: when the current value is empty and the remote retrieve returns a
non-empty value with no error, setValueIfEmpty returns exactly that value and
the only external call is the single retrieve (getenv is never invoked), and
Init stores that value into the slot. -/
theorem C2_remote_value_wins (env : Env) (host : String) (port timeout : Int)
    (key secret envVarKey ccf ckf caf : String) (c : ParameterStoreConfig)
    (herr : env.remote.err = none) (hval : env.remote.value ≠ "")
    (hc : c.ParameterStoreValue = "") (hflag : c.ParameterStoreUseEmptyValue = false) :
    setValueIfEmpty env host port timeout "" key secret envVarKey ccf ckf caf
      = ((env.remote.value, none), [CallEvent.retrieveCall (variantOf ccf ckf caf) key]) ∧
    ParameterStoreConfig.Init env c host port timeout
      = (Except.ok { c with ParameterStoreValue := env.remote.value },
         [CallEvent.retrieveCall
            (variantOf c.ClientCertFile c.ClientKeyFile c.CACertFile) c.ParameterStoreKey]) := by
  constructor
  · simp [setValueIfEmpty, simpleRetrieveParameterWithTimeout, herr, hval]
  · simp [ParameterStoreConfig.Init, hc, hflag, setValueIfEmpty,
      simpleRetrieveParameterWithTimeout, herr, hval]

/-- C2 witness at concrete inputs. -/
theorem C2_remote_value_wins_witness :
    setValueIfEmpty envOkRemote "h" 1 5 "" "k" "s" "ENVK" "" "" ""
      = (("remote-val", none), [CallEvent.retrieveCall TransportVariant.plain "k"]) ∧
    ParameterStoreConfig.Init envOkRemote slotK "h" 1 5
      = (Except.ok { slotK with ParameterStoreValue := "remote-val" },
         [CallEvent.retrieveCall TransportVariant.plain "k"]) :=
  C2_remote_value_wins envOkRemote "h" 1 5 "k" "s" "ENVK" "" "" "" slotK
    rfl (by decide) rfl rfl

/-- C3: when the current value is empty and the remote retrieve misses
(empty value without error, or an error of either classification), the call
trace of setValueIfEmpty is exactly one retrieve followed by exactly one
getenv on the fallback env var: each source is tried exactly once. -/
theorem C3_fallback_calls_each_source_once (env : Env) (host : String)
    (port timeout : Int) (key secret envVarKey ccf ckf caf : String)
    (hmiss : env.remote.err ≠ none ∨ env.remote.value = "") :
    (setValueIfEmpty env host port timeout "" key secret envVarKey ccf ckf caf).2
      = [CallEvent.retrieveCall (variantOf ccf ckf caf) key,
         CallEvent.getenvCall envVarKey] := by
  cases he : env.remote.err with
  | none =>
      have hv : env.remote.value = "" := by
        rcases hmiss with h | h
        · exact absurd he h
        · exact h
      by_cases hg : env.getenv envVarKey = "" <;>
        simp [setValueIfEmpty, simpleRetrieveParameterWithTimeout, he, hv, hg]
  | some e =>
      cases hd : env.remote.deadlineExceeded <;>
        by_cases hg : env.getenv envVarKey = "" <;>
          simp [setValueIfEmpty, simpleRetrieveParameterWithTimeout, he, hd, hg]

/-- C3 witness at concrete inputs. -/
theorem C3_fallback_calls_each_source_once_witness :
    (setValueIfEmpty envTimedOut "h" 1 5 "" "k" "s" "ENVK" "" "" "").2
      = [CallEvent.retrieveCall TransportVariant.plain "k",
         CallEvent.getenvCall "ENVK"] :=
  C3_fallback_calls_each_source_once envTimedOut "h" 1 5 "k" "s" "ENVK" "" "" ""
    (Or.inl (by simp [envTimedOut]))

/-- C4: when the current value is empty, the remote retrieve misses, and
getenv returns the empty string, setValueIfEmpty fails with exactly the
documented message with the key and env var name substituted, and Init
propagates that error (the Go panic). -/
theorem C4_unresolved_error_message (env : Env) (host : String)
    (port timeout : Int) (key secret envVarKey ccf ckf caf : String)
    (c : ParameterStoreConfig)
    (hmiss : env.remote.err ≠ none ∨ env.remote.value = "")
    (hg : env.getenv envVarKey = "")
    (hc : c.ParameterStoreValue = "") (hflag : c.ParameterStoreUseEmptyValue = false)
    (hge : env.getenv c.EnvironmentVariableKey = "") :
    (setValueIfEmpty env host port timeout "" key secret envVarKey ccf ckf caf).1
      = ("", some (GoErr.msg
          ("Failed to retrieve value for parameter store key \x27" ++ key ++
           "\x27 (checked env var \x27" ++ envVarKey ++
           "\x27). Neither parameter store nor environment variable provided a value."))) ∧
    (ParameterStoreConfig.Init env c host port timeout).1
      = Except.error (GoErr.msg
          ("Failed to retrieve value for parameter store key \x27" ++ c.ParameterStoreKey ++
           "\x27 (checked env var \x27" ++ c.EnvironmentVariableKey ++
           "\x27). Neither parameter store nor environment variable provided a value.")) := by
  have main : ∀ k sec e c1 c2 c3 : String, env.getenv e = "" →
      (setValueIfEmpty env host port timeout "" k sec e c1 c2 c3).1
        = ("", some (GoErr.msg (unresolvedMsg k e))) := by
    intro k sec e c1 c2 c3 hgk
    cases heo : env.remote.err with
    | none =>
        have hv : env.remote.value = "" := by
          rcases hmiss with h | h
          · exact absurd heo h
          · exact h
        simp [setValueIfEmpty, simpleRetrieveParameterWithTimeout, heo, hv, hgk]
    | some er =>
        cases hd : env.remote.deadlineExceeded <;>
          simp [setValueIfEmpty, simpleRetrieveParameterWithTimeout, heo, hd, hgk]
  refine ⟨by simpa [unresolvedMsg] using main key secret envVarKey ccf ckf caf hg, ?_⟩
  have h2 := main c.ParameterStoreKey c.ParameterStoreSecret c.EnvironmentVariableKey
    c.ClientCertFile c.ClientKeyFile c.CACertFile hge
  have h2' : (setValueIfEmpty env host port timeout "" c.ParameterStoreKey
      c.ParameterStoreSecret c.EnvironmentVariableKey c.ClientCertFile
      c.ClientKeyFile c.CACertFile).1.2
      = some (GoErr.msg (unresolvedMsg c.ParameterStoreKey c.EnvironmentVariableKey)) := by
    rw [h2]
  simp only [ParameterStoreConfig.Init, hc]
  simp only [hflag]
  simp [h2', unresolvedMsg]

/-- C4 witness at concrete inputs. -/
theorem C4_unresolved_error_message_witness :
    (setValueIfEmpty envEmptyRemote "h" 1 5 "" "k" "s" "ENVK" "" "" "").1
      = ("", some (GoErr.msg
          "Failed to retrieve value for parameter store key \x27k\x27 (checked env var \x27ENVK\x27). Neither parameter store nor environment variable provided a value.")) ∧
    (ParameterStoreConfig.Init envEmptyRemote slotK "h" 1 5).1
      = Except.error (GoErr.msg
          "Failed to retrieve value for parameter store key \x27k\x27 (checked env var \x27ENVK\x27). Neither parameter store nor environment variable provided a value.") :=
  C4_unresolved_error_message envEmptyRemote "h" 1 5 "k" "s" "ENVK" "" "" "" slotK
    (Or.inr rfl) rfl rfl rfl rfl

/-- A sample slot with the use-empty flag set and no pre-set value. -/
def slotE : ParameterStoreConfig :=
  { slotK with ParameterStoreUseEmptyValue := true }

/-- C5: when the use-empty flag is set and the current value is empty, Init
is a no-op: the slot is returned unchanged (value still empty), no error is
raised, and no external call is performed. -/
theorem C5_use_empty_flag_no_op (env : Env) (c : ParameterStoreConfig)
    (host : String) (port timeout : Int)
    (hc : c.ParameterStoreValue = "") (hflag : c.ParameterStoreUseEmptyValue = true) :
    ParameterStoreConfig.Init env c host port timeout = (Except.ok c, []) := by
  simp [ParameterStoreConfig.Init, hc, hflag]

/-- C5 witness at concrete inputs. -/
theorem C5_use_empty_flag_no_op_witness :
    ParameterStoreConfig.Init envEmptyRemote slotE "h" 1 5 = (Except.ok slotE, []) :=
  C5_use_empty_flag_no_op envEmptyRemote slotE "h" 1 5 rfl rfl

/-- C6: with a valid host and port, constructing a client with exactly one or
exactly two of the three certificate sources provided fails with the mTLS
validation error, while zero or three provided pass that check and the
construction succeeds. -/
theorem C6_mtls_all_or_nothing (host : String) (port timeout : Int)
    (clientCert clientKey caCert : CertificateSource)
    (hh : ¬ host = "") (hp : 0 < port) :
    ((providedCount clientCert clientKey caCert = 1 ∨
      providedCount clientCert clientKey caCert = 2) →
      NewParameterStoreClient host port timeout clientCert clientKey caCert
        = Except.error
            (GoErr.msg "for mTLS, client certificate, client key, and CA certificate must all be provided")) ∧
    ((providedCount clientCert clientKey caCert = 0 ∨
      providedCount clientCert clientKey caCert = 3) →
      ∃ cfg, NewParameterStoreClient host port timeout clientCert clientKey caCert
        = Except.ok cfg) := by
  have hp' : ¬ port ≤ 0 := not_le.mpr hp
  cases h1 : clientCert.IsProvided <;> cases h2 : clientKey.IsProvided <;>
    cases h3 : caCert.IsProvided <;>
      simp [NewParameterStoreClient, providedCount, hh, hp', h1, h2, h3]

/-- A certificate source with nothing provided. -/
def cs0 : CertificateSource := { FilePath := "", Bytes := [] }

/-- A certificate source provided through a file path. -/
def csP : CertificateSource := { FilePath := "c.pem", Bytes := [] }

/-- C6 witness at concrete inputs: one-of-three fails, zero-of-three passes. -/
theorem C6_mtls_all_or_nothing_witness :
    NewParameterStoreClient "h" 1 5 csP cs0 cs0
      = Except.error
          (GoErr.msg "for mTLS, client certificate, client key, and CA certificate must all be provided") ∧
    ∃ cfg, NewParameterStoreClient "h" 1 5 cs0 cs0 cs0 = Except.ok cfg :=
  ⟨(C6_mtls_all_or_nothing "h" 1 5 csP cs0 cs0 (by decide) (by decide)).1
      (Or.inl (by decide)),
   (C6_mtls_all_or_nothing "h" 1 5 cs0 cs0 cs0 (by decide) (by decide)).2
      (Or.inl (by decide))⟩

/-- C7: a retrieve whose deadline elapsed returns the distinct timeout
wrapper around the underlying error, a retrieve that failed without deadline
overrun returns its error unwrapped (so the two are distinguishable), and
the fallback treats any two erring retrieves identically: given the same
process environment, setValueIfEmpty produces identical results and call
traces, both proceeding to the env var lookup. -/
theorem C7_timeout_classification (env1 env2 : Env) (host : String)
    (port timeout : Int) (key secret envVarKey ccf ckf caf : String) :
    (∀ e, env1.remote.err = some e → env1.remote.deadlineExceeded = true →
      (simpleRetrieveParameterWithTimeout env1 host port timeout
          secret key ccf ckf caf).1
        = ("", some (GoErr.wrapped "parameter store operation timed out" e))) ∧
    (∀ e, env1.remote.err = some e → env1.remote.deadlineExceeded = false →
      (simpleRetrieveParameterWithTimeout env1 host port timeout
          secret key ccf ckf caf).1
        = (env1.remote.value, some e)) ∧
    (env1.remote.err.isSome = true → env2.remote.err.isSome = true →
      env1.getenv = env2.getenv →
      setValueIfEmpty env1 host port timeout "" key secret envVarKey ccf ckf caf
        = setValueIfEmpty env2 host port timeout "" key secret envVarKey ccf ckf caf) := by
  refine ⟨?_, ?_, ?_⟩
  · intro e he hd
    simp [simpleRetrieveParameterWithTimeout, he, hd]
  · intro e he hd
    simp [simpleRetrieveParameterWithTimeout, he, hd]
  · intro h1 h2 hg
    obtain ⟨e1, he1⟩ := Option.isSome_iff_exists.mp h1
    obtain ⟨e2, he2⟩ := Option.isSome_iff_exists.mp h2
    cases hd1 : env1.remote.deadlineExceeded <;>
      cases hd2 : env2.remote.deadlineExceeded <;>
        simp [setValueIfEmpty, simpleRetrieveParameterWithTimeout,
          he1, he2, hd1, hd2, hg]

/-- An env like envFailRemote but failing with a different transport error. -/
def envFailOther : Env :=
  { remote := { value := "", err := some (GoErr.msg "other"), deadlineExceeded := false },
    getenv := fun _ => "" }

/-- C7 witness at concrete inputs. -/
theorem C7_timeout_classification_witness :
    (simpleRetrieveParameterWithTimeout envTimedOut "h" 1 5 "s" "k" "" "" "").1
      = ("", some (GoErr.wrapped "parameter store operation timed out" (GoErr.msg "boom"))) ∧
    (simpleRetrieveParameterWithTimeout envFailRemote "h" 1 5 "s" "k" "" "" "").1
      = ("", some (GoErr.msg "boom")) ∧
    setValueIfEmpty envFailRemote "h" 1 5 "" "k" "s" "ENVK" "" "" ""
      = setValueIfEmpty envFailOther "h" 1 5 "" "k" "s" "ENVK" "" "" "" :=
  ⟨(C7_timeout_classification envTimedOut envTimedOut "h" 1 5 "k" "s" "ENVK" "" "" "").1
      (GoErr.msg "boom") rfl rfl,
   (C7_timeout_classification envFailRemote envFailRemote "h" 1 5 "k" "s" "ENVK" "" "" "").2.1
      (GoErr.msg "boom") rfl rfl,
   (C7_timeout_classification envFailRemote envFailOther "h" 1 5 "k" "s" "ENVK" "" "" "").2.2
      rfl rfl rfl⟩

/-- C8: with a valid host and port and an all-or-nothing certificate triple,
a supplied timeout at most zero yields a client whose timeout is the 30
second default (in nanoseconds), and a positive supplied timeout is kept. -/
theorem C8_timeout_default (host : String) (port timeout : Int)
    (clientCert clientKey caCert : CertificateSource)
    (hh : ¬ host = "") (hp : 0 < port)
    (hcert : (clientCert.IsProvided || clientKey.IsProvided || caCert.IsProvided) = false ∨
             (clientCert.IsProvided && clientKey.IsProvided && caCert.IsProvided) = true) :
    (timeout ≤ 0 →
      NewParameterStoreClient host port timeout clientCert clientKey caCert
        = Except.ok { Host := host, Port := port, Timeout := 30 * 1000000000,
                      ClientCert := clientCert, ClientKey := clientKey, CACert := caCert }) ∧
    (0 < timeout →
      NewParameterStoreClient host port timeout clientCert clientKey caCert
        = Except.ok { Host := host, Port := port, Timeout := timeout,
                      ClientCert := clientCert, ClientKey := clientKey, CACert := caCert }) := by
  have hp' : ¬ port ≤ 0 := not_le.mpr hp
  constructor
  · intro ht
    rcases hcert with h | h <;> simp [NewParameterStoreClient, hh, hp', ht, h]
  · intro ht
    have ht' : ¬ timeout ≤ 0 := not_le.mpr ht
    rcases hcert with h | h <;> simp [NewParameterStoreClient, hh, hp', ht', h]

/-- C8 witness at concrete inputs. -/
theorem C8_timeout_default_witness :
    NewParameterStoreClient "h" 1 0 cs0 cs0 cs0
      = Except.ok { Host := "h", Port := 1, Timeout := 30000000000,
                    ClientCert := cs0, ClientKey := cs0, CACert := cs0 } ∧
    NewParameterStoreClient "h" 1 7 cs0 cs0 cs0
      = Except.ok { Host := "h", Port := 1, Timeout := 7,
                    ClientCert := cs0, ClientKey := cs0, CACert := cs0 } :=
  ⟨(C8_timeout_default "h" 1 0 cs0 cs0 cs0 (by decide) (by decide)
      (Or.inl (by decide))).1 (by decide),
   (C8_timeout_default "h" 1 7 cs0 cs0 cs0 (by decide) (by decide)
      (Or.inl (by decide))).2 (by decide)⟩

/-- C9: GetData returns the raw bytes when non-empty without reading any
file; otherwise, with a non-empty file path, it returns the file contents
on success and a wrapped read error on failure, reading exactly that path;
with neither provided it returns nil data and nil error with no read. -/
theorem C9_getdata_priority (cs : CertificateSource) (fs : FileSystem) :
    (cs.Bytes.length > 0 → cs.GetData fs = ((some cs.Bytes, none), [])) ∧
    (cs.Bytes = [] → cs.FilePath ≠ "" → ∀ data, fs cs.FilePath = Except.ok data →
      cs.GetData fs = ((some data, none), [cs.FilePath])) ∧
    (cs.Bytes = [] → cs.FilePath ≠ "" → ∀ e, fs cs.FilePath = Except.error e →
      cs.GetData fs
        = ((none, some (GoErr.wrapped
              ("failed to read certificate/key from " ++ cs.FilePath) e)),
           [cs.FilePath])) ∧
    (cs.Bytes = [] → cs.FilePath = "" → cs.GetData fs = ((none, none), [])) := by
  refine ⟨?_, ?_, ?_, ?_⟩
  · intro hb
    simp [CertificateSource.GetData, hb]
  · intro hb hf data hfs
    simp [CertificateSource.GetData, hb, hf, hfs]
  · intro hb hf e hfs
    simp [CertificateSource.GetData, hb, hf, hfs]
  · intro hb hf
    simp [CertificateSource.GetData, hb, hf]

/-- A concrete file system: one readable file, everything else fails. -/
def fsW : FileSystem := fun p =>
  if p = "/ca.pem" then Except.ok [1, 2] else Except.error (GoErr.msg "no such file")

/-- C9 witness at concrete inputs, one per branch. -/
theorem C9_getdata_priority_witness :
    CertificateSource.GetData { FilePath := "/ignored", Bytes := [9] } fsW
      = ((some [9], none), []) ∧
    CertificateSource.GetData { FilePath := "/ca.pem", Bytes := [] } fsW
      = ((some [1, 2], none), ["/ca.pem"]) ∧
    CertificateSource.GetData { FilePath := "/missing", Bytes := [] } fsW
      = ((none, some (GoErr.wrapped "failed to read certificate/key from /missing"
            (GoErr.msg "no such file"))), ["/missing"]) ∧
    CertificateSource.GetData { FilePath := "", Bytes := [] } fsW
      = ((none, none), []) :=
  ⟨(C9_getdata_priority { FilePath := "/ignored", Bytes := [9] } fsW).1 (by decide),
   (C9_getdata_priority { FilePath := "/ca.pem", Bytes := [] } fsW).2.1
      rfl (by decide) [1, 2] rfl,
   (C9_getdata_priority { FilePath := "/missing", Bytes := [] } fsW).2.2.1
      rfl (by decide) (GoErr.msg "no such file") rfl,
   (C9_getdata_priority { FilePath := "", Bytes := [] } fsW).2.2.2 rfl rfl⟩

/-- Changing only the certificate path arguments cannot change the result of
setValueIfEmpty as long as the chosen transport variant agrees. -/
theorem setValueIfEmpty_variant_congr (env : Env) (host : String)
    (port timeout : Int) (value key secret envVarKey a1 a2 a3 b1 b2 b3 : String)
    (h : variantOf a1 a2 a3 = variantOf b1 b2 b3) :
    setValueIfEmpty env host port timeout value key secret envVarKey a1 a2 a3
      = setValueIfEmpty env host port timeout value key secret envVarKey b1 b2 b3 := by
  simp [setValueIfEmpty, simpleRetrieveParameterWithTimeout, h]

/-- C10: when at least one but not all of the three certificate file paths
is empty, the resolution path silently chooses the plaintext transport and
behaves exactly as with no certificates at all (no validation error is
raised), while NewParameterStoreClient rejects that same incomplete triple. -/
theorem C10_mixedCerts_plaintext (env : Env) (host : String)
    (port timeout : Int) (key secret envVarKey ccf ckf caf : String)
    (hsomeEmpty : ccf = "" ∨ ckf = "" ∨ caf = "")
    (hnotAllEmpty : ¬ (ccf = "" ∧ ckf = "" ∧ caf = "")) :
    variantOf ccf ckf caf = TransportVariant.plain ∧
    setValueIfEmpty env host port timeout "" key secret envVarKey ccf ckf caf
      = setValueIfEmpty env host port timeout "" key secret envVarKey "" "" "" ∧
    (¬ host = "" → 0 < port →
      NewParameterStoreClient host port timeout
          { FilePath := ccf, Bytes := [] } { FilePath := ckf, Bytes := [] }
          { FilePath := caf, Bytes := [] }
        = Except.error
            (GoErr.msg "for mTLS, client certificate, client key, and CA certificate must all be provided")) := by
  have hplain : variantOf ccf ckf caf = TransportVariant.plain := by
    rcases hsomeEmpty with h | h | h <;> simp [variantOf, mtlsConfigured, h]
  refine ⟨hplain, ?_, ?_⟩
  · exact setValueIfEmpty_variant_congr env host port timeout "" key secret envVarKey
      ccf ckf caf "" "" "" (by rw [hplain]; rfl)
  · intro hh hp
    have hp' : ¬ port ≤ 0 := not_le.mpr hp
    by_cases h1 : ccf = "" <;> by_cases h2 : ckf = "" <;> by_cases h3 : caf = ""
    all_goals try exact absurd (And.intro h1 (And.intro h2 h3)) hnotAllEmpty
    all_goals try (rcases hsomeEmpty with h | h | h <;> contradiction)
    all_goals
      simp [NewParameterStoreClient, CertificateSource.IsProvided, hh, hp', h1, h2, h3]

/-- C10 witness at concrete inputs. -/
theorem C10_mixedCerts_plaintext_witness :
    variantOf "cert.pem" "" "" = TransportVariant.plain ∧
    setValueIfEmpty envOkRemote "h" 1 5 "" "k" "s" "ENVK" "cert.pem" "" ""
      = setValueIfEmpty envOkRemote "h" 1 5 "" "k" "s" "ENVK" "" "" "" ∧
    NewParameterStoreClient "h" 1 5
        { FilePath := "cert.pem", Bytes := [] } { FilePath := "", Bytes := [] }
        { FilePath := "", Bytes := [] }
      = Except.error
          (GoErr.msg "for mTLS, client certificate, client key, and CA certificate must all be provided") :=
  have h := C10_mixedCerts_plaintext envOkRemote "h" 1 5 "k" "s" "ENVK"
    "cert.pem" "" "" (Or.inr (Or.inl rfl)) (by decide)
  ⟨h.1, h.2.1, h.2.2 (by decide) (by decide)⟩

end SPSC
